import Mathlib

/-!
Verification development for the EcohydrologyWorkflowLib feature/DEM query
pipeline.  The Python sources `ssurgolib/featurequery.py` and
`wcs4demlib/demquery.py` are shallowly embedded below: machine floats become
exact rationals, filesystem and network activity become an explicit effect
trace over an abstract collaborator environment, and Python exceptions become
an `Except` error value.  Collaborator modules that are imported by
`featurequery.py` but whose source is not part of this snapshot
(`spatialdatalib.utils`, `ssurgolib.attributequery`) are modelled from the
specification, as marked in their doc comments.
-/

namespace Ecohydro

/-- Bounding box record: the dict `{minX, minY, maxX, maxY, srs}` used
throughout `featurequery.py` and `demquery.py`.  Coordinates are Python
floats, embedded as exact rationals. -/
structure BBox where
  minX : ℚ
  minY : ℚ
  maxX : ℚ
  maxY : ℚ
  srs : String
deriving DecidableEq, Repr

/-- Flat coordinate-space area of a box, `(maxX - minX) * (maxY - minY)`.
Used to state the partition properties of the tiler. -/
def coordArea (b : BBox) : ℚ :=
  (b.maxX - b.minX) * (b.maxY - b.minY)

/-- Two boxes are separated when their interiors are disjoint: they touch at
most along a shared boundary line, so their overlap has zero area. -/
def separatedBoxes (t u : BBox) : Prop :=
  t.maxX ≤ u.minX ∨ u.maxX ≤ t.minX ∨ t.maxY ≤ u.minY ∨ u.maxY ≤ t.minY

instance (t u : BBox) : Decidable (separatedBoxes t u) := by
  unfold separatedBoxes
  infer_instance

/-- Rendering of a Python float coordinate by `str()`, as used on line 98 of
`featurequery.py` to build the tile label.  Integral values render as in
Python (`str(-100.0) = "-100.0"`); other rationals get a deterministic
rendering of the exact value.  Only determinism in the coordinate value
matters for the claims. -/
def pyStr (q : ℚ) : String :=
  if q.den = 1 then toString q.num ++ ".0"
  else toString q.num ++ "/" ++ toString q.den

/-- Left-pad the decimal rendering of `n` with zeros to six digits
(fractional part of a C-style `%f` conversion). -/
def natPad6 (n : Nat) : String :=
  let s := toString n
  String.mk (List.replicate (6 - s.length) '0') ++ s

/-- Fixed-point rendering of a nonnegative rational with six decimal places. -/
def formatFixed6Abs (q : ℚ) : String :=
  let scaled := (Rat.floor (q * 1000000 + 1 / 2)).toNat
  toString (scaled / 1000000) ++ "." ++ natPad6 (scaled % 1000000)

/-- Model of the C-style `%f` conversion used by Python string formatting in
`featurequery.py` line 107 and `demquery.py` line 87: six decimal places,
rounded to nearest. -/
def formatFixed6 (q : ℚ) : String :=
  if q < 0 then "-" ++ formatFixed6Abs (-q) else formatFixed6Abs q

/-- Tile label built on line 98 of `featurequery.py`:
`str(minX) + "_" + str(minY) + "_" + str(maxX) + "_" + str(maxY)`. -/
def bboxLabel (b : BBox) : String :=
  pyStr b.minX ++ "_" ++ pyStr b.minY ++ "_" ++ pyStr b.maxX ++ "_" ++ pyStr b.maxY

/-- Deterministic final output filename for a tile, line 100 of
`featurequery.py`: `"%s_bbox_%s-attr.gml" % (typeName, bboxLabel)`. -/
def gmlFilenameFor (typeName : String) (b : BBox) : String :=
  typeName ++ "_bbox_" ++ bboxLabel b ++ "-attr.gml"

/-- Intermediate (raw payload) filename for a tile, line 111 of
`featurequery.py`: `"%s_bbox_%s.gml" % (typeName, bboxLabel)`. -/
def intGmlFilenameFor (typeName : String) (b : BBox) : String :=
  typeName ++ "_bbox_" ++ bboxLabel b ++ ".gml"

/-- Model of `os.path.join(outputDir, filename)` for a directory path without
a trailing separator. -/
def pathJoin (dir file : String) : String :=
  dir ++ "/" ++ file

/-- Head of the spatial filter literal of `featurequery.py` line 107, up to
the opening of the coordinates element. -/
def filterHead : String :=
  "<Filter><BBOX><PropertyName>Geometry</PropertyName> <Box srsName=\x27EPSG:4326\x27><coordinates>"

/-- Tail of the spatial filter literal of `featurequery.py` line 107. -/
def filterTail : String :=
  "</coordinates> </Box></BBOX></Filter>"

/-- Spatial filter request string built on line 107 of `featurequery.py`.
Note it hard-codes `srsName` `EPSG:4326` and the property name `Geometry`;
only the four tile coordinates are interpolated (with `%f`). -/
def mkFilter (minX minY maxX maxY : ℚ) : String :=
  filterHead ++ formatFixed6 minX ++ "," ++ formatFixed6 minY ++ " " ++
    formatFixed6 maxX ++ "," ++ formatFixed6 maxY ++ filterTail

/-- Value assigned to `MAX_SSURGO_EXTENT` on line 50 of `featurequery.py`
(the adjacent comment claims 10,100,000,000 sq. meters). -/
def MAX_SSURGO_EXTENT_assigned : ℚ := 10000000000

/-- Effective `MAX_SSURGO_EXTENT` after the immediate reassignment on line 51
of `featurequery.py`: the line-50 value divided by 10. -/
def MAX_SSURGO_EXTENT : ℚ := MAX_SSURGO_EXTENT_assigned / 10

/-- Modelled from the spec: `ssurgolib.attributequery` is imported by
`featurequery.py` but its source is not in this snapshot.  A per-component
soil attribute row per §3 of the spec:
`{mapunitKey, componentPercent, ksat, textureClass, pctClay, pctSilt, pctSand}`. -/
structure ComponentAttributeRecord where
  mapunitKey : String
  componentPercent : ℚ
  ksat : ℚ
  textureClass : String
  pctClay : ℚ
  pctSilt : ℚ
  pctSand : ℚ
deriving DecidableEq, Repr

/-- Modelled from the spec: aggregated (component-percent weighted average)
record per mapunit key, per §3 of the spec. -/
structure AggregatedAttributeRecord where
  ksat : ℚ
  pctClay : ℚ
  pctSilt : ℚ
  pctSand : ℚ
deriving DecidableEq, Repr

/-- Modelled from the spec: per-key core of
`ssurgolib.attributequery.computeWeightedAverageKsatClaySandSilt` (source not
in this snapshot).  Per §4.5: each numeric field is
`Σ(record.field * record.componentPercent) / Σ(record.componentPercent)`;
when `Σ(componentPercent) = 0` no entry is emitted for the key. -/
def aggregateComponents (recs : List ComponentAttributeRecord) : Option AggregatedAttributeRecord :=
  let total := (recs.map (fun r => r.componentPercent)).sum
  if total = 0 then none
  else some
    { ksat := (recs.map (fun r => r.ksat * r.componentPercent)).sum / total
      pctClay := (recs.map (fun r => r.pctClay * r.componentPercent)).sum / total
      pctSilt := (recs.map (fun r => r.pctSilt * r.componentPercent)).sum / total
      pctSand := (recs.map (fun r => r.pctSand * r.componentPercent)).sum / total }

/-- Modelled from the spec: `computeWeightedAverageKsatClaySandSilt` of
`ssurgolib.attributequery` (source not in this snapshot), §4.5 of the spec:
reduce each mapunit key's component rows to one weighted-average record,
omitting keys whose total component percent is zero. -/
def computeWeightedAverageKsatClaySandSilt
    (attributes : List (String × List ComponentAttributeRecord)) :
    List (String × AggregatedAttributeRecord) :=
  attributes.filterMap (fun kv => (aggregateComponents kv.2).map (fun a => (kv.1, a)))

/-- Ceiling of the square root of a natural number, used to balance the
modelled tiling grid. -/
def ceilSqrt (k : Nat) : Nat :=
  if Nat.sqrt k * Nat.sqrt k = k then Nat.sqrt k else Nat.sqrt k + 1

/-- Cell `(i, j)` of an `nx` by `ny` grid over `b`: coordinates are shared
exactly between adjacent cells, so the grid is an exact partition. -/
def gridCell (b : BBox) (nx ny i j : Nat) : BBox :=
  let dx := (b.maxX - b.minX) / nx
  let dy := (b.maxY - b.minY) / ny
  { minX := b.minX + i * dx
    minY := b.minY + j * dy
    maxX := b.minX + (i + 1) * dx
    maxY := b.minY + (j + 1) * dy
    srs := b.srs }

/-- Row-major listing of the `nx` by `ny` grid cells over `b`. -/
def gridTiles (b : BBox) (nx ny : Nat) : List BBox :=
  (List.range (nx * ny)).map (fun k => gridCell b nx ny (k % nx) (k / nx))

/-- Modelled from the spec: `spatialdatalib.utils.tileBoundingBox` is imported
by `featurequery.py` but its source is not in this snapshot.  Per §4.1 of the
spec: a box whose area is within `maxArea` is returned unchanged as a single
tile; otherwise the box is split into a balanced rectangular grid sized from
the ratio of the box's area to `maxArea`, forming an exact partition.  The
area function (geodesic per the spec, implemented in the missing
`calculateBoundingBoxAreaSqMeters`) is a parameter. -/
def tileBoundingBox (area : BBox → ℚ) (b : BBox) (maxArea : ℚ) : List BBox :=
  if area b ≤ maxArea then [b]
  else
    let n := max (ceilSqrt (Rat.ceil (area b / maxArea)).toNat) 1
    gridTiles b n n

/-- Observable side effects of the pipeline: network calls, payload
processing steps and file operations, in program order. -/
inductive Effect where
  | networkFetch (typeName filterStr : String)
  | fileWrite (path content : String)
  | keyExtract (payload : String)
  | attributeQuery (mukeys : List String)
  | joinOp (payload : String)
  | fileDelete (path : String)
  | httpGet (host url : String)
deriving DecidableEq, Repr

/-- Python exceptions raised by the embedded functions. -/
inductive PyError where
  | ioError (errnoVal : Nat) (msg : String)
  | exn (msg : String)
  | assertionError
deriving DecidableEq, Repr

/-- Errno constant `errno.ENOTDIR`. -/
def ENOTDIR : Nat := 20

/-- Errno constant `errno.EACCES`. -/
def EACCES : Nat := 13

/-- Errno constant `errno.EEXIST`. -/
def EEXIST : Nat := 17

/-- Filesystem-and-trace state threaded through a run: the set of existing
file paths and the ordered list of effects performed so far. -/
structure SysState where
  files : List String
  trace : List Effect
deriving DecidableEq, Repr

/-- Effect of creating a file at path `p` (`os.path.exists` afterwards). -/
def addFile (p : String) (fs : List String) : List String :=
  if p ∈ fs then fs else p :: fs

/-- External collaborators of `getMapunitFeaturesForBoundingBox`, abstracted:
the filesystem answers for the output directory, the geodesic area function
of `spatialdatalib.utils`, the WFS fetch, the SAX mapunit-key extraction, the
tabular attribute query, and the attribute join. -/
structure Collab where
  isDir : Bool
  writable : Bool
  area : BBox → ℚ
  fetch : String → String → String
  extractKeys : String → List String
  getAttributes : List String → List (String × List ComponentAttributeRecord)
  joinAttrs : String → String → List (String × AggregatedAttributeRecord) → String

/-- Effects performed for a tile that takes the full pipeline path (lines
104-141 of `featurequery.py`), in program order: WFS fetch, intermediate
write, SAX key extraction, tabular attribute query, join, final write,
intermediate delete. -/
def tileEffects (env : Collab) (typeName intPath finalPath : String) (b : BBox) : List Effect :=
  let filterStr := mkFilter b.minX b.minY b.maxX b.maxY
  let gml := env.fetch typeName filterStr
  let mukeys := env.extractKeys gml
  [Effect.networkFetch typeName filterStr,
   Effect.fileWrite intPath gml,
   Effect.keyExtract gml,
   Effect.attributeQuery mukeys,
   Effect.joinOp gml,
   Effect.fileWrite finalPath
     (env.joinAttrs gml typeName
       (computeWeightedAverageKsatClaySandSilt (env.getAttributes mukeys))),
   Effect.fileDelete intPath]

/-- File-set update of the full pipeline path: intermediate file written,
final file written, intermediate file deleted (lines 113, 136, 141). -/
def tileFilesUpdate (intPath finalPath : String) (fs : List String) : List String :=
  (addFile finalPath (addFile intPath fs)).erase intPath

/-- Body of the per-tile loop of `getMapunitFeaturesForBoundingBox` (lines
96-143 of `featurequery.py`): skip the tile when its deterministic output
file already exists, otherwise run the fetch/extract/query/join/write
pipeline; either way append the tile's output filename. -/
def processTile (env : Collab) (outputDir typeName : String) (st : SysState) (b : BBox) :
    SysState × String :=
  let gmlFilename := gmlFilenameFor typeName b
  let gmlFilepath := pathJoin outputDir gmlFilename
  if gmlFilepath ∈ st.files then (st, gmlFilename)
  else
    let intGmlFilepath := pathJoin outputDir (intGmlFilenameFor typeName b)
    ({ files := tileFilesUpdate intGmlFilepath gmlFilepath st.files
       trace := st.trace ++ tileEffects env typeName intGmlFilepath gmlFilepath b },
     gmlFilename)

/-- Fold of `processTile` over a tile list, accumulating the state and the
returned filename list (`gmlFiles` in the source). -/
def runTilesGo (env : Collab) (outputDir typeName : String)
    (p : SysState × List String) (bs : List BBox) : SysState × List String :=
  bs.foldl (fun q t =>
    ((processTile env outputDir typeName q.1 t).1,
      q.2 ++ [(processTile env outputDir typeName q.1 t).2])) p

/-- Per-tile loop of `getMapunitFeaturesForBoundingBox`, starting from an
empty filename list. -/
def runTiles (env : Collab) (outputDir typeName : String) (st : SysState) (bs : List BBox) :
    SysState × List String :=
  runTilesGo env outputDir typeName (st, []) bs

/-- Shallow embedding of `getMapunitFeaturesForBoundingBox`
(`featurequery.py` lines 54-147): output-directory checks, feature type
selection, tiling or extent guard, then the per-tile pipeline.  Returns the
final state (files and effect trace) together with the returned filename
list or the raised exception. -/
def getMapunitFeaturesForBoundingBox (env : Collab) (outputDir : String) (bbox : BBox)
    (mapunitExtended tileBbox : Bool) (fs0 : List String) :
    SysState × Except PyError (List String) :=
  let st0 : SysState := { files := fs0, trace := [] }
  if ¬ env.isDir then
    (st0, Except.error (PyError.ioError ENOTDIR
      ("Output directory " ++ outputDir ++ " is not a directory")))
  else if ¬ env.writable then
    (st0, Except.error (PyError.ioError EACCES
      ("Not allowed to write to output directory " ++ outputDir)))
  else
    let typeName := if mapunitExtended then "MapunitPolyExtended" else "MapunitPoly"
    if tileBbox then
      let r := runTiles env outputDir typeName st0 (tileBoundingBox env.area bbox MAX_SSURGO_EXTENT)
      (r.1, Except.ok r.2)
    else
      if env.area bbox > MAX_SSURGO_EXTENT then
        (st0, Except.error (PyError.exn
          ("Bounding box area is greater than " ++ formatFixed6 MAX_SSURGO_EXTENT ++ " sq. meters")))
      else
        let r := runTiles env outputDir typeName st0 [bbox]
        (r.1, Except.ok r.2)

/-- Coverage names accepted by `demquery.py` (line 39). -/
def SUPPORTED_COVERAGE : List String :=
  ["SRTM_30m_USA", "SRTM_90m_Global", "GTOPO_30arc_Global"]

/-- Raster formats accepted by `demquery.py` (line 40). -/
def SUPPORTED_FORMATS : List String :=
  ["image/geotiff", "image/netcdf", "image/PNG", "image/JPEG", "image/JPEG2000",
   "image/HDF4IMAGE"]

/-- WCS service host of `demquery.py` (line 43). -/
def HOST : String := "geobrain.laits.gmu.edu"

/-- Read buffer length `_BUFF_LEN = 4096 * 10` of `demquery.py` (line 47). -/
def BUFF_LEN : Nat := 4096 * 10

/-- Bounding box string `"%f,%f,%f,%f" % (minX, minY, maxX, maxY)` of
`demquery.py` line 87. -/
def demBboxStr (b : BBox) : String :=
  formatFixed6 b.minX ++ "," ++ formatFixed6 b.minY ++ "," ++
    formatFixed6 b.maxX ++ "," ++ formatFixed6 b.maxY

/-- Request URL built by `URL_PROTO.format(...)` on line 89 of `demquery.py`,
with `store=False` rendering as Python `str(False)`. -/
def demUrl (coverage crs bboxStr responseCrs fmt : String) : String :=
  "/cgi-bin/gbwcs-dem?service=wcs&version=1.0.0&request=getcoverage&coverage=" ++
    coverage ++ "&crs=" ++ crs ++ "&bbox=" ++ bboxStr ++ "&response_crs=" ++
    responseCrs ++ "&format=" ++ fmt ++ "&store=False"

/-- External collaborators of `getDEMForBoundingBox`: the filesystem answers
for the output directory, and the HTTP response (status and body bytes). -/
structure DemEnv where
  isDir : Bool
  writable : Bool
  status : Nat
  body : List Char

/-- Successive chunks returned by the `res.read(_BUFF_LEN)` loop of
`demquery.py` lines 99-105: the body is consumed `BUFF_LEN` characters at a
time until a read returns nothing. -/
def readChunks (l : List Char) : List (List Char) :=
  if l = [] then []
  else List.take BUFF_LEN l :: readChunks (List.drop BUFF_LEN l)
termination_by l.length
decreasing_by
  simp only [List.length_drop, BUFF_LEN]
  have : l.length ≠ 0 := fun h => by simp_all [List.length_eq_zero]
  omega

/-- Shallow embedding of `getDEMForBoundingBox` (`demquery.py` lines 50-108):
assertions, output-directory checks, the overwrite guard, the single HTTP
coverage request, and the chunked streaming of the response body to the
output file.  Returns the final state together with the returned boolean or
the raised exception. -/
def getDEMForBoundingBox (env : DemEnv) (outputDir outDEMFilename : String) (bbox : BBox)
    (coverage srs fmt : String) (overwrite : Bool) (fs0 : List String) :
    SysState × Except PyError Bool :=
  let st0 : SysState := { files := fs0, trace := [] }
  if fmt ∉ SUPPORTED_FORMATS then (st0, Except.error PyError.assertionError)
  else if coverage ∉ SUPPORTED_COVERAGE then (st0, Except.error PyError.assertionError)
  else if ¬ env.isDir then
    (st0, Except.error (PyError.ioError ENOTDIR
      ("Output directory " ++ outputDir ++ " is not a directory")))
  else if ¬ env.writable then
    (st0, Except.error (PyError.ioError EACCES
      ("Not allowed to write to output directory " ++ outputDir)))
  else
    let outDEMFilepath := pathJoin outputDir outDEMFilename
    if overwrite = false ∧ outDEMFilepath ∈ fs0 then
      (st0, Except.error (PyError.ioError EEXIST
        ("DEM file " ++ outDEMFilepath ++ " already exists")))
    else
      let url := demUrl coverage bbox.srs (demBboxStr bbox) srs fmt
      let st1 : SysState := { files := fs0, trace := [Effect.httpGet HOST url] }
      if env.status ≠ 200 then (st1, Except.error PyError.assertionError)
      else
        let data := List.take BUFF_LEN env.body
        if data = [] then (st1, Except.ok false)
        else
          ({ files := addFile outDEMFilepath fs0
             trace := st1.trace ++
               [Effect.fileWrite outDEMFilepath (String.mk (readChunks env.body).flatten)] },
           Except.ok true)

/-- Concrete soil component: 60 percent of mapunit 123, ksat 10. -/
def compA : ComponentAttributeRecord :=
  { mapunitKey := "123", componentPercent := 60, ksat := 10, textureClass := "loam"
    pctClay := 0, pctSilt := 0, pctSand := 0 }

/-- Concrete soil component: 40 percent of mapunit 123, ksat 20. -/
def compB : ComponentAttributeRecord :=
  { mapunitKey := "123", componentPercent := 40, ksat := 20, textureClass := "clay"
    pctClay := 0, pctSilt := 0, pctSand := 0 }

/-- Concrete collaborator environment used to instantiate the theorems: a
writable output directory, flat-area computation, and trivial service
answers. -/
def collabW : Collab :=
  { isDir := true
    writable := true
    area := fun b => coordArea b
    fetch := fun _ _ => "gml-payload"
    extractKeys := fun _ => ["100001"]
    getAttributes := fun ks => ks.map (fun k => (k, [compA]))
    joinAttrs := fun gml _ _ => gml }

/-- Concrete 100 km by 100 km box (flat area 10^10 sq. meters). -/
def bigBox : BBox :=
  { minX := 0, minY := 0, maxX := 100000, maxY := 100000, srs := "EPSG:4326" }

/-- Concrete small box (flat area 4 sq. meters). -/
def smallBox : BBox :=
  { minX := 0, minY := 0, maxX := 2, maxY := 2, srs := "EPSG:4326" }

/-- Concrete HTTP environment for the DEM witnesses: good directory, status
200, three-byte body. -/
def demEnvW : DemEnv :=
  { isDir := true, writable := true, status := 200, body := ['a', 'b', 'c'] }

theorem aggregateComponents_perm {l l2 : List ComponentAttributeRecord} (h : l.Perm l2) :
    aggregateComponents l = aggregateComponents l2 := by
  unfold aggregateComponents
  rw [(h.map (fun r => r.componentPercent)).sum_eq,
    (h.map (fun r => r.ksat * r.componentPercent)).sum_eq,
    (h.map (fun r => r.pctClay * r.componentPercent)).sum_eq,
    (h.map (fun r => r.pctSilt * r.componentPercent)).sum_eq,
    (h.map (fun r => r.pctSand * r.componentPercent)).sum_eq]

theorem processTile_snd (env : Collab) (outputDir typeName : String) (st : SysState) (b : BBox) :
    (processTile env outputDir typeName st b).2 = gmlFilenameFor typeName b := by
  simp only [processTile]
  split <;> rfl

theorem runTilesGo_snd (env : Collab) (outputDir typeName : String) (bs : List BBox) :
    ∀ p : SysState × List String,
      (runTilesGo env outputDir typeName p bs).2 = p.2 ++ bs.map (gmlFilenameFor typeName) := by
  induction bs with
  | nil => intro p; simp [runTilesGo]
  | cons b rest ih =>
    intro p
    simp only [runTilesGo, List.foldl_cons, List.map_cons] at ih ⊢
    rw [ih, processTile_snd, List.append_assoc, List.singleton_append]

theorem runTiles_snd (env : Collab) (outputDir typeName : String) (st : SysState) (bs : List BBox) :
    (runTiles env outputDir typeName st bs).2 = bs.map (gmlFilenameFor typeName) := by
  simpa [runTiles] using runTilesGo_snd env outputDir typeName bs (st, [])

/-- C4 counterexample.  The claim's example is arithmetically wrong: two
components of mapunit key 123 with percents 60/40 and ksat values 10/20
aggregate, in either order, to weighted ksat `(10*60+20*40)/100 = 14`, not
16. -/
theorem weightedKsat_example_yields_14_not_16 :
    (computeWeightedAverageKsatClaySandSilt [("123", [compA, compB])]).map
        (fun kv => kv.2.ksat) = [14] ∧
    (computeWeightedAverageKsatClaySandSilt [("123", [compB, compA])]).map
        (fun kv => kv.2.ksat) = [14] ∧
    (14 : ℚ) ≠ 16 := by
  refine ⟨?_, ?_, by norm_num⟩ <;>
    · simp [computeWeightedAverageKsatClaySandSilt, aggregateComponents, compA, compB,
        List.filterMap_cons]
      norm_num

/-- C4 (amended).  Attribute aggregation is pure and order-independent:
permuting one mapunit key's component record list leaves the aggregated
output unchanged; in particular, components with percents 60/40 and ksat
values 10/20 yield weighted ksat 14 in either order. -/
theorem computeWeightedAverage_order_independent :
    (∀ (pre post : List (String × List ComponentAttributeRecord)) (k : String)
        (l l2 : List ComponentAttributeRecord), l.Perm l2 →
        computeWeightedAverageKsatClaySandSilt (pre ++ (k, l) :: post) =
          computeWeightedAverageKsatClaySandSilt (pre ++ (k, l2) :: post)) ∧
    computeWeightedAverageKsatClaySandSilt [("123", [compA, compB])] =
      [("123", { ksat := 14, pctClay := 0, pctSilt := 0, pctSand := 0 })] ∧
    computeWeightedAverageKsatClaySandSilt [("123", [compB, compA])] =
      [("123", { ksat := 14, pctClay := 0, pctSilt := 0, pctSand := 0 })] := by
  refine ⟨?_, ?_, ?_⟩
  · intro pre post k l l2 h
    simp [computeWeightedAverageKsatClaySandSilt, List.filterMap_append, List.filterMap_cons,
      aggregateComponents_perm h]
  · simp [computeWeightedAverageKsatClaySandSilt, aggregateComponents, compA, compB,
      List.filterMap_cons]
    norm_num
  · simp [computeWeightedAverageKsatClaySandSilt, aggregateComponents, compA, compB,
      List.filterMap_cons]
    norm_num

/-- Witness for C4: the order-independence theorem applied to the concrete
two-component list of mapunit 123 and its transposition. -/
theorem computeWeightedAverage_order_independent_witness :
    computeWeightedAverageKsatClaySandSilt [("123", [compA, compB])] =
      computeWeightedAverageKsatClaySandSilt [("123", [compB, compA])] :=
  computeWeightedAverage_order_independent.1 [] [] "123" [compA, compB] [compB, compA]
    (List.Perm.swap compB compA [])

/-- C8.  The effective maximum per-request extent is 10^9 sq. meters, not the
10,100,000,000 the line-50 comment suggests: the line-50 assignment of
10000000000 is immediately divided by 10, and the non-tiled path of
`getMapunitFeaturesForBoundingBox` raises exactly when the computed area
exceeds 10^9. -/
theorem MAX_SSURGO_EXTENT_effective :
    MAX_SSURGO_EXTENT_assigned = 10000000000 ∧
    MAX_SSURGO_EXTENT = 1000000000 ∧
    MAX_SSURGO_EXTENT ≠ 10100000000 ∧
    (∀ (env : Collab) (outputDir : String) (bbox : BBox) (mapunitExtended : Bool)
        (fs0 : List String), env.isDir = true → env.writable = true →
        ((∃ m, (getMapunitFeaturesForBoundingBox env outputDir bbox mapunitExtended false fs0).2 =
            Except.error (PyError.exn m)) ↔ env.area bbox > 1000000000)) := by
  have hval : MAX_SSURGO_EXTENT = 1000000000 := by
    norm_num [MAX_SSURGO_EXTENT, MAX_SSURGO_EXTENT_assigned]
  refine ⟨rfl, hval, by rw [hval]; norm_num, ?_⟩
  intro env outputDir bbox mapunitExtended fs0 h1 h2
  simp only [getMapunitFeaturesForBoundingBox, h1, h2, not_true, if_false,
    Bool.false_eq_true, if_neg, ite_false, ite_true]
  rw [← hval]
  by_cases h : env.area bbox > MAX_SSURGO_EXTENT
  · simp [h]
  · simp [h]

/-- Witness for C8: instantiated at the concrete environment and the 100 km
square box of flat area 10^10 sq. meters. -/
theorem MAX_SSURGO_EXTENT_effective_witness :
    (∃ m, (getMapunitFeaturesForBoundingBox collabW "out" bigBox false false []).2 =
        Except.error (PyError.exn m)) ↔ collabW.area bigBox > 1000000000 :=
  MAX_SSURGO_EXTENT_effective.2.2.2 collabW "out" bigBox false [] rfl rfl

/-- C1.  With `tileBbox := false`, a bounding box whose computed area exceeds
`MAX_SSURGO_EXTENT` makes `getMapunitFeaturesForBoundingBox` raise the
extent exception with an empty effect trace (no tile fetched, no file
written); with area at or below the limit the extent exception is never
raised. -/
theorem extent_guard_raises_before_effects
    (env : Collab) (outputDir : String) (bbox : BBox) (mapunitExtended : Bool)
    (fs0 : List String) (h1 : env.isDir = true) (h2 : env.writable = true) :
    (env.area bbox > MAX_SSURGO_EXTENT →
      getMapunitFeaturesForBoundingBox env outputDir bbox mapunitExtended false fs0 =
        ({ files := fs0, trace := [] },
          Except.error (PyError.exn
            ("Bounding box area is greater than " ++ formatFixed6 MAX_SSURGO_EXTENT ++
              " sq. meters")))) ∧
    (env.area bbox ≤ MAX_SSURGO_EXTENT →
      ∀ m, (getMapunitFeaturesForBoundingBox env outputDir bbox mapunitExtended false fs0).2 ≠
        Except.error (PyError.exn m)) := by
  constructor
  · intro h
    simp [getMapunitFeaturesForBoundingBox, h1, h2, h]
  · intro h m
    simp [getMapunitFeaturesForBoundingBox, h1, h2, not_lt.mpr h]

/-- Witness for C1: the concrete environment with the 100 km square box
(area 10^10 > 10^9) raises the extent exception with an empty trace. -/
theorem extent_guard_raises_before_effects_witness :
    getMapunitFeaturesForBoundingBox collabW "out" bigBox false false [] =
      ({ files := [], trace := [] },
        Except.error (PyError.exn
          ("Bounding box area is greater than " ++ formatFixed6 MAX_SSURGO_EXTENT ++
            " sq. meters"))) :=
  (extent_guard_raises_before_effects collabW "out" bigBox false [] rfl rfl).1
    (by norm_num [collabW, coordArea, bigBox, MAX_SSURGO_EXTENT, MAX_SSURGO_EXTENT_assigned])

/-- C6.  A missing or unwritable output directory makes
`getMapunitFeaturesForBoundingBox` raise the corresponding IOError with an
empty effect trace and an unchanged file set: the directory checks run
before any tiling, network activity, or file writes. -/
theorem outputDir_checked_before_any_effect
    (env : Collab) (outputDir : String) (bbox : BBox) (mapunitExtended tileBbox : Bool)
    (fs0 : List String) :
    (env.isDir = false →
      getMapunitFeaturesForBoundingBox env outputDir bbox mapunitExtended tileBbox fs0 =
        ({ files := fs0, trace := [] },
          Except.error (PyError.ioError ENOTDIR
            ("Output directory " ++ outputDir ++ " is not a directory")))) ∧
    (env.isDir = true → env.writable = false →
      getMapunitFeaturesForBoundingBox env outputDir bbox mapunitExtended tileBbox fs0 =
        ({ files := fs0, trace := [] },
          Except.error (PyError.ioError EACCES
            ("Not allowed to write to output directory " ++ outputDir)))) := by
  constructor
  · intro h
    simp [getMapunitFeaturesForBoundingBox, h]
  · intro h1 h2
    simp [getMapunitFeaturesForBoundingBox, h1, h2]

/-- Witness for C6: a concrete environment whose output directory is not a
directory yields the ENOTDIR error with an empty trace. -/
theorem outputDir_checked_before_any_effect_witness :
    getMapunitFeaturesForBoundingBox { collabW with isDir := false } "out" smallBox false true [] =
      ({ files := [], trace := [] },
        Except.error (PyError.ioError ENOTDIR
          ("Output directory " ++ "out" ++ " is not a directory"))) :=
  (outputDir_checked_before_any_effect { collabW with isDir := false } "out" smallBox
    false true []).1 rfl

theorem length_pathJoin (dir file : String) :
    (pathJoin dir file).length = dir.length + 1 + file.length := by
  simp [pathJoin, String.length_append]
  rfl

theorem gmlFilename_ne_intGmlFilename (outputDir typeName : String) (b : BBox) :
    pathJoin outputDir (gmlFilenameFor typeName b) ≠
      pathJoin outputDir (intGmlFilenameFor typeName b) := by
  intro hEq
  have hlen := congrArg String.length hEq
  rw [length_pathJoin, length_pathJoin] at hlen
  simp only [gmlFilenameFor, intGmlFilenameFor, String.length_append] at hlen
  have h9 : ("-attr.gml" : String).length = 9 := rfl
  have h4 : (".gml" : String).length = 4 := rfl
  rw [h9, h4] at hlen
  omega

theorem mem_addFile_self (p : String) (fs : List String) : p ∈ addFile p fs := by
  unfold addFile
  split
  · assumption
  · exact List.mem_cons_self p fs

theorem mem_addFile_of_mem (p q : String) (fs : List String) (h : q ∈ fs) :
    q ∈ addFile p fs := by
  unfold addFile
  split
  · exact h
  · exact List.mem_cons_of_mem p h

theorem nodup_addFile (p : String) (fs : List String) (h : fs.Nodup) :
    (addFile p fs).Nodup := by
  unfold addFile
  split
  · exact h
  · exact List.nodup_cons.mpr ⟨by assumption, h⟩

/-- C5.  When the directory checks pass and the non-tiled extent guard does
not fire, `getMapunitFeaturesForBoundingBox` returns the ordered list of
filenames, one per tile in the tiler's order, each built deterministically
from the selected feature type and the tile's four coordinates by
`gmlFilenameFor` (no output-directory component in the name). -/
theorem returned_filenames_are_deterministic
    (env : Collab) (outputDir : String) (bbox : BBox) (mapunitExtended tileBbox : Bool)
    (fs0 : List String) (h1 : env.isDir = true) (h2 : env.writable = true)
    (h3 : tileBbox = true ∨ env.area bbox ≤ MAX_SSURGO_EXTENT) :
    (getMapunitFeaturesForBoundingBox env outputDir bbox mapunitExtended tileBbox fs0).2 =
      Except.ok
        ((if tileBbox then tileBoundingBox env.area bbox MAX_SSURGO_EXTENT else [bbox]).map
          (gmlFilenameFor (if mapunitExtended then "MapunitPolyExtended" else "MapunitPoly"))) := by
  cases tileBbox with
  | true =>
    simp [getMapunitFeaturesForBoundingBox, h1, h2, runTiles_snd]
  | false =>
    have h4 : ¬ (MAX_SSURGO_EXTENT < env.area bbox) := by
      rcases h3 with h3 | h3
      · cases h3
      · exact not_lt.mpr h3
    simp [getMapunitFeaturesForBoundingBox, h1, h2, h4, runTiles_snd]

/-- Witness for C5: the concrete environment, small box, non-tiled path. -/
theorem returned_filenames_are_deterministic_witness :
    (getMapunitFeaturesForBoundingBox collabW "out" smallBox false false []).2 =
      Except.ok
        ((if false then tileBoundingBox collabW.area smallBox MAX_SSURGO_EXTENT
          else [smallBox]).map
          (gmlFilenameFor (if false then "MapunitPolyExtended" else "MapunitPoly"))) :=
  returned_filenames_are_deterministic collabW "out" smallBox false false [] rfl rfl
    (Or.inr (by norm_num [collabW, coordArea, smallBox, MAX_SSURGO_EXTENT,
      MAX_SSURGO_EXTENT_assigned]))

/-- C2.  A tile whose deterministic output file already exists when the
per-tile loop of `getMapunitFeaturesForBoundingBox` reaches it is skipped
outright: the state (file set and effect trace — hence no fetch, key
extraction, attribute query, join, or write) is returned unchanged, and the
tile still contributes its deterministic filename to the returned list. -/
theorem existing_tile_output_skips_pipeline
    (env : Collab) (outputDir typeName : String) (st : SysState) (b : BBox)
    (h : pathJoin outputDir (gmlFilenameFor typeName b) ∈ st.files) :
    processTile env outputDir typeName st b = (st, gmlFilenameFor typeName b) := by
  simp only [processTile]
  rw [if_pos h]

/-- Witness for C2: a state already holding the small box's output file is
returned unchanged together with the deterministic filename. -/
theorem existing_tile_output_skips_pipeline_witness :
    processTile collabW "out" "MapunitPoly"
        { files := [pathJoin "out" (gmlFilenameFor "MapunitPoly" smallBox)], trace := [] }
        smallBox =
      ({ files := [pathJoin "out" (gmlFilenameFor "MapunitPoly" smallBox)], trace := [] },
        gmlFilenameFor "MapunitPoly" smallBox) :=
  existing_tile_output_skips_pipeline collabW "out" "MapunitPoly"
    { files := [pathJoin "out" (gmlFilenameFor "MapunitPoly" smallBox)], trace := [] }
    smallBox (List.mem_singleton.mpr rfl)

/-- C7.  A tile taking the full pipeline path appends exactly the effect
sequence of `tileEffects` — the raw payload is written to the intermediate
file before the joined output is written, and the intermediate file is
deleted afterwards — and in the resulting file set only the final `-attr`
output file of the tile remains. -/
theorem intermediate_file_cleanup
    (env : Collab) (outputDir typeName : String) (st : SysState) (b : BBox)
    (hnd : st.files.Nodup)
    (h : pathJoin outputDir (gmlFilenameFor typeName b) ∉ st.files) :
    (processTile env outputDir typeName st b).1.trace =
      st.trace ++ tileEffects env typeName (pathJoin outputDir (intGmlFilenameFor typeName b))
        (pathJoin outputDir (gmlFilenameFor typeName b)) b ∧
    pathJoin outputDir (gmlFilenameFor typeName b) ∈
      (processTile env outputDir typeName st b).1.files ∧
    pathJoin outputDir (intGmlFilenameFor typeName b) ∉
      (processTile env outputDir typeName st b).1.files := by
  have hne := gmlFilename_ne_intGmlFilename outputDir typeName b
  have hnd2 : (addFile (pathJoin outputDir (gmlFilenameFor typeName b))
      (addFile (pathJoin outputDir (intGmlFilenameFor typeName b)) st.files)).Nodup :=
    nodup_addFile _ _ (nodup_addFile _ _ hnd)
  simp only [processTile, if_neg h]
  refine ⟨by trivial, ?_, ?_⟩
  · unfold tileFilesUpdate
    rw [List.mem_erase_of_ne hne]
    exact mem_addFile_self _ _
  · unfold tileFilesUpdate
    intro hmem
    exact (hnd2.mem_erase_iff.mp hmem).1 rfl

/-- Witness for C7: processing the small box from an empty file set leaves
only the final output file and the full pipeline trace. -/
theorem intermediate_file_cleanup_witness :
    (processTile collabW "out" "MapunitPoly" { files := [], trace := [] } smallBox).1.trace =
      [] ++ tileEffects collabW "MapunitPoly"
        (pathJoin "out" (intGmlFilenameFor "MapunitPoly" smallBox))
        (pathJoin "out" (gmlFilenameFor "MapunitPoly" smallBox)) smallBox ∧
    pathJoin "out" (gmlFilenameFor "MapunitPoly" smallBox) ∈
      (processTile collabW "out" "MapunitPoly" { files := [], trace := [] } smallBox).1.files ∧
    pathJoin "out" (intGmlFilenameFor "MapunitPoly" smallBox) ∉
      (processTile collabW "out" "MapunitPoly" { files := [], trace := [] } smallBox).1.files :=
  intermediate_file_cleanup collabW "out" "MapunitPoly" { files := [], trace := [] } smallBox
    List.nodup_nil (List.not_mem_nil _)

theorem mkFilter_right_assoc (a b c d : ℚ) :
    mkFilter a b c d =
      filterHead ++ (formatFixed6 a ++ ("," ++ (formatFixed6 b ++ (" " ++
        (formatFixed6 c ++ ("," ++ (formatFixed6 d ++ filterTail))))))) := by
  simp [mkFilter, String.append_assoc]

theorem mkFilter_contains_srsName (a b c d : ℚ) :
    ∃ s t, mkFilter a b c d = s ++ ("srsName=\x27EPSG:4326\x27" ++ t) := by
  refine ⟨"<Filter><BBOX><PropertyName>Geometry</PropertyName> <Box ",
    "><coordinates>" ++ (formatFixed6 a ++ ("," ++ (formatFixed6 b ++ (" " ++
      (formatFixed6 c ++ ("," ++ (formatFixed6 d ++ filterTail))))))), ?_⟩
  rw [mkFilter_right_assoc]
  have h2 : filterHead =
      "<Filter><BBOX><PropertyName>Geometry</PropertyName> <Box " ++
        ("srsName=\x27EPSG:4326\x27" ++ "><coordinates>") := rfl
  conv_lhs => rw [h2]
  rw [String.append_assoc, String.append_assoc]

theorem mkFilter_contains_geometry (a b c d : ℚ) :
    ∃ s t, mkFilter a b c d = s ++ ("<PropertyName>Geometry</PropertyName>" ++ t) := by
  refine ⟨"<Filter><BBOX>",
    " <Box srsName=\x27EPSG:4326\x27><coordinates>" ++ (formatFixed6 a ++ ("," ++
      (formatFixed6 b ++ (" " ++ (formatFixed6 c ++ ("," ++
        (formatFixed6 d ++ filterTail))))))), ?_⟩
  rw [mkFilter_right_assoc]
  have h2 : filterHead =
      "<Filter><BBOX>" ++ ("<PropertyName>Geometry</PropertyName>" ++
        " <Box srsName=\x27EPSG:4326\x27><coordinates>") := rfl
  conv_lhs => rw [h2]
  rw [String.append_assoc, String.append_assoc]

/-- C9.  Every WFS fetch performed for a tile uses the spatial filter built
from exactly the tile's four coordinates: the filter string declares
`srsName` `EPSG:4326` and property name `Geometry` as fixed literals —
independent of the `srs` field of the bounding box, which `mkFilter` does
not even receive — so only the coordinates vary between requests. -/
theorem wfs_filter_declares_fixed_srs
    (env : Collab) (outputDir typeName : String) (st : SysState) (b : BBox)
    (h : pathJoin outputDir (gmlFilenameFor typeName b) ∉ st.files) :
    (∀ ty f, Effect.networkFetch ty f ∈ (processTile env outputDir typeName st b).1.trace →
      Effect.networkFetch ty f ∈ st.trace ∨
        (ty = typeName ∧ f = mkFilter b.minX b.minY b.maxX b.maxY)) ∧
    (∀ b2 : BBox, b2.minX = b.minX → b2.minY = b.minY → b2.maxX = b.maxX →
      b2.maxY = b.maxY →
      mkFilter b2.minX b2.minY b2.maxX b2.maxY = mkFilter b.minX b.minY b.maxX b.maxY) ∧
    (∃ s t, mkFilter b.minX b.minY b.maxX b.maxY =
      s ++ ("srsName=\x27EPSG:4326\x27" ++ t)) ∧
    (∃ s t, mkFilter b.minX b.minY b.maxX b.maxY =
      s ++ ("<PropertyName>Geometry</PropertyName>" ++ t)) := by
  refine ⟨?_, ?_, mkFilter_contains_srsName _ _ _ _, mkFilter_contains_geometry _ _ _ _⟩
  · intro ty f hmem
    simp only [processTile, if_neg h] at hmem
    rcases List.mem_append.mp hmem with hold | hnew
    · exact Or.inl hold
    · right
      simp only [tileEffects, List.mem_cons, List.not_mem_nil, or_false] at hnew
      rcases hnew with hnew | hnew | hnew | hnew | hnew | hnew | hnew <;>
        first
          | (injection hnew with e1 e2; exact ⟨e1, e2⟩)
          | (cases hnew)
  · intro b2 e1 e2 e3 e4
    rw [e1, e2, e3, e4]

/-- Witness for C9: instantiated at the concrete environment and the small
box, processed from an empty file set. -/
theorem wfs_filter_declares_fixed_srs_witness :
    (∀ ty f, Effect.networkFetch ty f ∈
        (processTile collabW "out" "MapunitPoly" { files := [], trace := [] } smallBox).1.trace →
      Effect.networkFetch ty f ∈ ({ files := [], trace := [] } : SysState).trace ∨
        (ty = "MapunitPoly" ∧
          f = mkFilter smallBox.minX smallBox.minY smallBox.maxX smallBox.maxY)) ∧
    (∀ b2 : BBox, b2.minX = smallBox.minX → b2.minY = smallBox.minY →
      b2.maxX = smallBox.maxX → b2.maxY = smallBox.maxY →
      mkFilter b2.minX b2.minY b2.maxX b2.maxY =
        mkFilter smallBox.minX smallBox.minY smallBox.maxX smallBox.maxY) ∧
    (∃ s t, mkFilter smallBox.minX smallBox.minY smallBox.maxX smallBox.maxY =
      s ++ ("srsName=\x27EPSG:4326\x27" ++ t)) ∧
    (∃ s t, mkFilter smallBox.minX smallBox.minY smallBox.maxX smallBox.maxY =
      s ++ ("<PropertyName>Geometry</PropertyName>" ++ t)) :=
  wfs_filter_declares_fixed_srs collabW "out" "MapunitPoly" { files := [], trace := [] }
    smallBox (List.not_mem_nil _)

theorem readChunks_flatten (l : List Char) : (readChunks l).flatten = l := by
  rw [readChunks]
  split
  · simp_all
  · rw [List.flatten_cons, readChunks_flatten (List.drop BUFF_LEN l)]
    exact List.take_append_drop _ _
termination_by l.length
decreasing_by
  simp only [List.length_drop, BUFF_LEN]
  have : l.length ≠ 0 := fun hz => by simp_all [List.length_eq_zero]
  omega

/-- C10.  `getDEMForBoundingBox` with `overwrite = false` and an existing
target file raises IOError EEXIST with an empty effect trace (no network
connection opened) and an unchanged file set; otherwise, on a 200 response,
it returns true exactly when the response body is nonempty — in which case
the whole body is streamed to the output file — and an empty body returns
false with no file created. -/
theorem dem_overwrite_guard_and_return
    (env : DemEnv) (outputDir outDEMFilename : String) (bbox : BBox)
    (coverage srs fmt : String) (overwrite : Bool) (fs0 : List String)
    (hfmt : fmt ∈ SUPPORTED_FORMATS) (hcov : coverage ∈ SUPPORTED_COVERAGE)
    (hdir : env.isDir = true) (hw : env.writable = true) :
    (overwrite = false → pathJoin outputDir outDEMFilename ∈ fs0 →
      getDEMForBoundingBox env outputDir outDEMFilename bbox coverage srs fmt overwrite fs0 =
        ({ files := fs0, trace := [] },
          Except.error (PyError.ioError EEXIST
            ("DEM file " ++ pathJoin outputDir outDEMFilename ++ " already exists")))) ∧
    ((overwrite = true ∨ pathJoin outputDir outDEMFilename ∉ fs0) → env.status = 200 →
      ((getDEMForBoundingBox env outputDir outDEMFilename bbox coverage srs fmt
          overwrite fs0).2 = Except.ok true ↔ env.body ≠ []) ∧
      (env.body = [] →
        getDEMForBoundingBox env outputDir outDEMFilename bbox coverage srs fmt overwrite fs0 =
          ({ files := fs0,
             trace := [Effect.httpGet HOST
               (demUrl coverage bbox.srs (demBboxStr bbox) srs fmt)] },
            Except.ok false)) ∧
      (env.body ≠ [] →
        getDEMForBoundingBox env outputDir outDEMFilename bbox coverage srs fmt overwrite fs0 =
          ({ files := addFile (pathJoin outputDir outDEMFilename) fs0,
             trace := [Effect.httpGet HOST
                 (demUrl coverage bbox.srs (demBboxStr bbox) srs fmt),
               Effect.fileWrite (pathJoin outputDir outDEMFilename)
                 (String.mk env.body)] },
            Except.ok true))) := by
  have hB : (0 : Nat) < BUFF_LEN := by norm_num [BUFF_LEN]
  constructor
  · intro hov hmem
    simp [getDEMForBoundingBox, hfmt, hcov, hdir, hw, hov, hmem]
  · intro hfresh hst
    have hguard : ¬ (overwrite = false ∧ pathJoin outputDir outDEMFilename ∈ fs0) := by
      rcases hfresh with hov | hmem
      · simp [hov]
      · simp [hmem]
    have htake : (List.take BUFF_LEN env.body = []) ↔ env.body = [] := by
      simp [List.take_eq_nil_iff, BUFF_LEN]
    refine ⟨?_, ?_, ?_⟩
    · constructor
      · intro hok
        intro hempty
        simp [getDEMForBoundingBox, hfmt, hcov, hdir, hw, hguard, hst, hempty] at hok
      · intro hne
        have : ¬ List.take BUFF_LEN env.body = [] := fun hx => hne (htake.mp hx)
        simp [getDEMForBoundingBox, hfmt, hcov, hdir, hw, hguard, hst, this]
    · intro hempty
      simp [getDEMForBoundingBox, hfmt, hcov, hdir, hw, hguard, hst, hempty]
    · intro hne
      have : ¬ List.take BUFF_LEN env.body = [] := fun hx => hne (htake.mp hx)
      simp [getDEMForBoundingBox, hfmt, hcov, hdir, hw, hguard, hst, this,
        readChunks_flatten]

/-- Witness for C10: the concrete HTTP environment streaming a three-byte
body with overwrite allowed. -/
theorem dem_overwrite_guard_and_return_witness :
    (false = false → pathJoin "out" "dem.tif" ∈ ([] : List String) →
      getDEMForBoundingBox demEnvW "out" "dem.tif" smallBox "SRTM_30m_USA" "EPSG:4326"
          "image/geotiff" false [] =
        ({ files := [], trace := [] },
          Except.error (PyError.ioError EEXIST
            ("DEM file " ++ pathJoin "out" "dem.tif" ++ " already exists")))) ∧
    ((false = true ∨ pathJoin "out" "dem.tif" ∉ ([] : List String)) → demEnvW.status = 200 →
      ((getDEMForBoundingBox demEnvW "out" "dem.tif" smallBox "SRTM_30m_USA" "EPSG:4326"
          "image/geotiff" false []).2 = Except.ok true ↔ demEnvW.body ≠ []) ∧
      (demEnvW.body = [] →
        getDEMForBoundingBox demEnvW "out" "dem.tif" smallBox "SRTM_30m_USA" "EPSG:4326"
            "image/geotiff" false [] =
          ({ files := [],
             trace := [Effect.httpGet HOST
               (demUrl "SRTM_30m_USA" smallBox.srs (demBboxStr smallBox) "EPSG:4326"
                 "image/geotiff")] },
            Except.ok false)) ∧
      (demEnvW.body ≠ [] →
        getDEMForBoundingBox demEnvW "out" "dem.tif" smallBox "SRTM_30m_USA" "EPSG:4326"
            "image/geotiff" false [] =
          ({ files := addFile (pathJoin "out" "dem.tif") [],
             trace := [Effect.httpGet HOST
                 (demUrl "SRTM_30m_USA" smallBox.srs (demBboxStr smallBox) "EPSG:4326"
                   "image/geotiff"),
               Effect.fileWrite (pathJoin "out" "dem.tif") (String.mk demEnvW.body)] },
            Except.ok true))) :=
  dem_overwrite_guard_and_return demEnvW "out" "dem.tif" smallBox "SRTM_30m_USA"
    "EPSG:4326" "image/geotiff" false [] (by decide) (by decide) rfl rfl

theorem coordArea_gridCell (b : BBox) (nx ny i j : Nat) :
    coordArea (gridCell b nx ny i j) =
      ((b.maxX - b.minX) / nx) * ((b.maxY - b.minY) / ny) := by
  simp only [coordArea, gridCell]
  ring

theorem gridTiles_length (b : BBox) (nx ny : Nat) :
    (gridTiles b nx ny).length = nx * ny := by
  simp [gridTiles]

theorem gridTiles_sum (b : BBox) (nx ny : Nat) (hnx : nx ≠ 0) (hny : ny ≠ 0) :
    ((gridTiles b nx ny).map coordArea).sum = coordArea b := by
  have hall : ∀ q ∈ (gridTiles b nx ny).map coordArea,
      q = ((b.maxX - b.minX) / nx) * ((b.maxY - b.minY) / ny) := by
    intro q hq
    rcases List.mem_map.mp hq with ⟨t, ht, rfl⟩
    rcases List.mem_map.mp ht with ⟨k, _, rfl⟩
    exact coordArea_gridCell b nx ny (k % nx) (k / nx)
  rw [List.sum_eq_card_nsmul _ _ hall, List.length_map, gridTiles_length, nsmul_eq_mul]
  have hnxQ : ((nx : ℚ)) ≠ 0 := Nat.cast_ne_zero.mpr hnx
  have hnyQ : ((ny : ℚ)) ≠ 0 := Nat.cast_ne_zero.mpr hny
  unfold coordArea
  field_simp

theorem gridTiles_pairwise (b : BBox) (nx ny : Nat)
    (hx : b.minX < b.maxX) (hy : b.minY < b.maxY) :
    (gridTiles b nx ny).Pairwise separatedBoxes := by
  have hdx : 0 ≤ (b.maxX - b.minX) / nx := by
    apply div_nonneg (by linarith) (Nat.cast_nonneg nx)
  have hdy : 0 ≤ (b.maxY - b.minY) / ny := by
    apply div_nonneg (by linarith) (Nat.cast_nonneg ny)
  unfold gridTiles
  rw [List.pairwise_map]
  refine List.Pairwise.imp ?_ (List.pairwise_lt_range (nx * ny))
  intro k k2 hkk
  have hdiv : k / nx ≤ k2 / nx := Nat.div_le_div_right (le_of_lt hkk)
  rcases lt_or_eq_of_le hdiv with hj | hj
  · refine Or.inr (Or.inr (Or.inl ?_))
    simp only [gridCell]
    have hcast : ((k / nx : ℕ) : ℚ) + 1 ≤ ((k2 / nx : ℕ) : ℚ) := by
      exact_mod_cast Nat.succ_le_of_lt hj
    have := mul_le_mul_of_nonneg_right hcast hdy
    linarith
  · have hmod : k % nx < k2 % nx := by
      have h1 := Nat.div_add_mod k nx
      have h2 := Nat.div_add_mod k2 nx
      have h3 : nx * (k / nx) + k % nx < nx * (k2 / nx) + k2 % nx := by
        rw [h1, h2]; exact hkk
      rw [hj] at h3
      exact Nat.lt_of_add_lt_add_left h3
    refine Or.inl ?_
    simp only [gridCell]
    have hcast : ((k % nx : ℕ) : ℚ) + 1 ≤ ((k2 % nx : ℕ) : ℚ) := by
      exact_mod_cast Nat.succ_le_of_lt hmod
    have := mul_le_mul_of_nonneg_right hcast hdx
    linarith

theorem segment_index (lo hi : ℚ) (n : Nat) (hn : n ≠ 0) (hlh : lo < hi) (x : ℚ)
    (h1 : lo ≤ x) (h2 : x ≤ hi) :
    ∃ i : Nat, i < n ∧ lo + i * ((hi - lo) / n) ≤ x ∧
      x ≤ lo + (i + 1) * ((hi - lo) / n) := by
  have hnQ : (0 : ℚ) < n := by exact_mod_cast Nat.pos_of_ne_zero hn
  set d : ℚ := (hi - lo) / n with hd
  have hdpos : 0 < d := div_pos (by linarith) hnQ
  have hnd : (n : ℚ) * d = hi - lo := by
    rw [hd]; field_simp
  set u : ℚ := (x - lo) / d with hu
  have hu0 : 0 ≤ u := div_nonneg (by linarith) hdpos.le
  have hun : u ≤ n := by
    rw [hu, div_le_iff₀ hdpos]
    linarith
  have hxu : x = lo + u * d := by
    have : u * d = x - lo := div_mul_cancel₀ _ hdpos.ne.symm
    linarith
  have hfloor_le : ((⌊u⌋ : ℤ) : ℚ) ≤ u := Int.floor_le u
  have hlt_floor : u < ((⌊u⌋ : ℤ) : ℚ) + 1 := Int.lt_floor_add_one u
  have hi0nn : (0 : ℤ) ≤ ⌊u⌋ := Int.floor_nonneg.mpr hu0
  by_cases hcase : (⌊u⌋).toNat < n
  · refine ⟨(⌊u⌋).toNat, hcase, ?_, ?_⟩
    · have hcast : (((⌊u⌋).toNat : ℕ) : ℚ) = ((⌊u⌋ : ℤ) : ℚ) := by
        exact_mod_cast Int.toNat_of_nonneg hi0nn
      have := mul_le_mul_of_nonneg_right (hcast.trans_le hfloor_le) hdpos.le
      linarith
    · have hcast : (((⌊u⌋).toNat : ℕ) : ℚ) = ((⌊u⌋ : ℤ) : ℚ) := by
        exact_mod_cast Int.toNat_of_nonneg hi0nn
      have hle : u ≤ (((⌊u⌋).toNat : ℕ) : ℚ) + 1 := by
        rw [hcast]; linarith
      have := mul_le_mul_of_nonneg_right hle hdpos.le
      linarith
  · have hge : (n : ℤ) ≤ ⌊u⌋ := by omega
    have hgeQ : (n : ℚ) ≤ ((⌊u⌋ : ℤ) : ℚ) := by exact_mod_cast hge
    have hun2 : u = n := le_antisymm hun (hgeQ.trans hfloor_le)
    have hn1 : 1 ≤ n := Nat.one_le_iff_ne_zero.mpr hn
    refine ⟨n - 1, by omega, ?_, ?_⟩
    · have hcast : ((n - 1 : ℕ) : ℚ) = (n : ℚ) - 1 := by
        push_cast [Nat.cast_sub hn1]
        ring
      rw [hcast, hxu, hun2]
      have : ((n : ℚ) - 1) * d ≤ (n : ℚ) * d := by
        apply mul_le_mul_of_nonneg_right (by linarith) hdpos.le
      linarith
    · have hcast : ((n - 1 : ℕ) : ℚ) = (n : ℚ) - 1 := by
        push_cast [Nat.cast_sub hn1]
        ring
      rw [hcast, hxu, hun2]
      have : ((n : ℚ) - 1 + 1) * d = (n : ℚ) * d := by ring
      linarith

theorem gridTiles_cover (b : BBox) (nx ny : Nat) (hnx : nx ≠ 0) (hny : ny ≠ 0)
    (hx : b.minX < b.maxX) (hy : b.minY < b.maxY) (x y : ℚ)
    (hx1 : b.minX ≤ x) (hx2 : x ≤ b.maxX) (hy1 : b.minY ≤ y) (hy2 : y ≤ b.maxY) :
    ∃ t ∈ gridTiles b nx ny, t.minX ≤ x ∧ x ≤ t.maxX ∧ t.minY ≤ y ∧ y ≤ t.maxY := by
  obtain ⟨i, hi, hxlo, hxhi⟩ := segment_index b.minX b.maxX nx hnx hx x hx1 hx2
  obtain ⟨j, hj, hylo, hyhi⟩ := segment_index b.minY b.maxY ny hny hy y hy1 hy2
  refine ⟨gridCell b nx ny i j, ?_, ?_, ?_, ?_, ?_⟩
  · unfold gridTiles
    apply List.mem_map.mpr
    refine ⟨i + j * nx, List.mem_range.mpr ?_, ?_⟩
    · calc i + j * nx < nx + j * nx := by omega
        _ = (j + 1) * nx := by ring
        _ ≤ ny * nx := Nat.mul_le_mul_right nx (Nat.succ_le_of_lt hj)
        _ = nx * ny := Nat.mul_comm ny nx
    · have hm : (i + j * nx) % nx = i := by
        rw [Nat.add_mul_mod_self_right, Nat.mod_eq_of_lt hi]
      have hdv : (i + j * nx) / nx = j := by
        rw [Nat.add_mul_div_right _ _ (Nat.pos_of_ne_zero hnx), Nat.div_eq_of_lt hi]
        exact Nat.zero_add j
      rw [hm, hdv]
  · simpa only [gridCell] using hxlo
  · simp only [gridCell]
    linarith
  · simpa only [gridCell] using hylo
  · simp only [gridCell]
    linarith

/-- C3.  Modelled from the spec (the tiler's source is not in this
snapshot): on a valid box whose area exceeds `maxArea`, `tileBoundingBox`
produces an exact partition — the tiles' coordinate areas sum to the box's
area, distinct tiles are pairwise separated (zero overlap area), and every
point of the box lies in some tile (no gaps). -/
theorem tileBoundingBox_exact_partition (area : BBox → ℚ) (b : BBox) (maxArea : ℚ)
    (hx : b.minX < b.maxX) (hy : b.minY < b.maxY) (h : area b > maxArea) :
    ((tileBoundingBox area b maxArea).map coordArea).sum = coordArea b ∧
    (tileBoundingBox area b maxArea).Pairwise separatedBoxes ∧
    (∀ x y : ℚ, b.minX ≤ x → x ≤ b.maxX → b.minY ≤ y → y ≤ b.maxY →
      ∃ t ∈ tileBoundingBox area b maxArea,
        t.minX ≤ x ∧ x ≤ t.maxX ∧ t.minY ≤ y ∧ y ≤ t.maxY) := by
  have hne : ¬ area b ≤ maxArea := not_le.mpr h
  have heq : tileBoundingBox area b maxArea =
      gridTiles b (max (ceilSqrt (Rat.ceil (area b / maxArea)).toNat) 1)
        (max (ceilSqrt (Rat.ceil (area b / maxArea)).toNat) 1) := by
    simp only [tileBoundingBox, if_neg hne]
  have hn : (max (ceilSqrt (Rat.ceil (area b / maxArea)).toNat) 1) ≠ 0 := by
    have := Nat.le_max_right (ceilSqrt (Rat.ceil (area b / maxArea)).toNat) 1
    omega
  rw [heq]
  exact ⟨gridTiles_sum b _ _ hn hn, gridTiles_pairwise b _ _ hx hy,
    fun x y h1 h2 h3 h4 => gridTiles_cover b _ _ hn hn hx hy x y h1 h2 h3 h4⟩

/-- Witness for C3: a 2 by 2 unit box with a constant area function 4 and
maximum tile area 1. -/
theorem tileBoundingBox_exact_partition_witness :
    ((tileBoundingBox (fun _ => 4) smallBox 1).map coordArea).sum = coordArea smallBox ∧
    (tileBoundingBox (fun _ => 4) smallBox 1).Pairwise separatedBoxes ∧
    (∀ x y : ℚ, smallBox.minX ≤ x → x ≤ smallBox.maxX → smallBox.minY ≤ y →
      y ≤ smallBox.maxY →
      ∃ t ∈ tileBoundingBox (fun _ => 4) smallBox 1,
        t.minX ≤ x ∧ x ≤ t.maxX ∧ t.minY ≤ y ∧ y ≤ t.maxY) :=
  tileBoundingBox_exact_partition (fun _ => 4) smallBox 1 (by norm_num [smallBox])
    (by norm_num [smallBox]) (by norm_num)

end Ecohydro
